import Mathlib

/- Verification of the NEURON NMODL synapse mechanisms and of the grading
submission example of the repository BlueBrain/MOOC-neurons-and-synapses-2017.

Embedded code:
* notebooks/week_4/TutNMODL_AMPANMDA/mechanisms/TsodyksMarkram_AMPA_NMDA.mod
  (deterministic Tsodyks-Markram AMPA/NMDA receptor),
* notebooks/week_4/mechanisms/StochasticTsodyksMarkram_AMPA_NMDA.mod
  (stochastic two-state release-site variant),
* the grading submission example of docs/README.md.

Real-valued NMODL quantities are embedded as Lean real numbers; the
NET_RECEIVE blocks become state-transition functions, the DERIVATIVE blocks
become right-hand-side functions together with their closed-form solutions,
and the caller-supplied uniform random source of the stochastic mechanism
becomes an explicit stream of draws consumed in program order. -/

/-- Parameters of the PARAMETER blocks shared by both mod files (the two files
declare the same parameter names; only default values differ). -/
structure TMParams where
  tau_r_AMPA : ℝ
  tau_d_AMPA : ℝ
  tau_r_NMDA : ℝ
  tau_d_NMDA : ℝ
  e : ℝ
  mg : ℝ
  gmax_AMPA : ℝ
  gmax_NMDA : ℝ
  tau_rec : ℝ
  tau_facil : ℝ
  U1 : ℝ

/-- Default parameter values of the deterministic mod file
(TsodyksMarkram_AMPA_NMDA.mod PARAMETER block). -/
noncomputable def detParams : TMParams :=
  { tau_r_AMPA := 0.2, tau_d_AMPA := 1.7, tau_r_NMDA := 0.29, tau_d_NMDA := 43
    e := 0, mg := 1, gmax_AMPA := 0.001, gmax_NMDA := 0.001
    tau_rec := 200, tau_facil := 200, U1 := 0.5 }

/-- Default parameter values of the stochastic mod file
(StochasticTsodyksMarkram_AMPA_NMDA.mod PARAMETER block). -/
noncomputable def stochParams : TMParams :=
  { tau_r_AMPA := 0.2, tau_d_AMPA := 1.7, tau_r_NMDA := 0.29, tau_d_NMDA := 43
    e := 0, mg := 1, gmax_AMPA := 0.001, gmax_NMDA := 0.001
    tau_rec := 600, tau_facil := 10, U1 := 0.5 }

/-- Time to peak of a dual-exponential conductance, as computed in the INITIAL
blocks of both mod files:
tp = (tau_r*tau_d)/(tau_d-tau_r)*log(tau_d/tau_r). -/
noncomputable def timeToPeak (tau_r tau_d : ℝ) : ℝ :=
  (tau_r * tau_d) / (tau_d - tau_r) * Real.log (tau_d / tau_r)

/-- Normalization factor of the INITIAL blocks of both mod files:
factor = -exp(-tp/tau_r)+exp(-tp/tau_d) followed by factor = 1/factor. -/
noncomputable def normFactor (tau_r tau_d : ℝ) : ℝ :=
  1 / (-Real.exp (-(timeToPeak tau_r tau_d) / tau_r)
       + Real.exp (-(timeToPeak tau_r tau_d) / tau_d))

/-- State of the deterministic mechanism: the STATE block of
TsodyksMarkram_AMPA_NMDA.mod (A_AMPA, B_AMPA, A_NMDA, B_NMDA, R, Use). -/
structure TMState where
  A_AMPA : ℝ
  B_AMPA : ℝ
  A_NMDA : ℝ
  B_NMDA : ℝ
  R : ℝ
  Use : ℝ

/-- Initial state set by the INITIAL block of the deterministic mod file:
rise and decay variables zeroed, R = 1, Use = 0. -/
noncomputable def TMinit : TMState :=
  { A_AMPA := 0, B_AMPA := 0, A_NMDA := 0, B_NMDA := 0, R := 1, Use := 0 }

/-- NET_RECEIVE block of the deterministic mod file:
Use = Use + U1*(1-Use); A = Use*R; R = R - A; then each receptor's rise and
decay variable is incremented by A*weight*factor.  The factor values are the
ones the INITIAL block stored in the ASSIGNED variables factor_AMPA and
factor_NMDA. -/
noncomputable def TMnetReceive (p : TMParams) (weight : ℝ) (s : TMState) : TMState :=
  let Use1 := s.Use + p.U1 * (1 - s.Use)
  let A := Use1 * s.R
  let R1 := s.R - A
  { A_AMPA := s.A_AMPA + A * weight * normFactor p.tau_r_AMPA p.tau_d_AMPA
    B_AMPA := s.B_AMPA + A * weight * normFactor p.tau_r_AMPA p.tau_d_AMPA
    A_NMDA := s.A_NMDA + A * weight * normFactor p.tau_r_NMDA p.tau_d_NMDA
    B_NMDA := s.B_NMDA + A * weight * normFactor p.tau_r_NMDA p.tau_d_NMDA
    R := R1
    Use := Use1 }

/-- Right-hand side of the equation Use' = -Use/tau_facil declared in the
DERIVATIVE odes block of both mod files. -/
noncomputable def UseRhs (tau_facil u : ℝ) : ℝ := -u / tau_facil

/-- Right-hand side of the equation R' = (1-R)/tau_rec declared in the
DERIVATIVE odes block of the deterministic mod file. -/
noncomputable def RRhs (tau_rec r : ℝ) : ℝ := (1 - r) / tau_rec

/-- Closed-form solution of Use' = -Use/tau_facil with initial value Use0:
Use(dt) = Use0 * exp(-dt/tau_facil). -/
noncomputable def UseSol (tau_facil Use0 : ℝ) : ℝ → ℝ :=
  fun dt => Use0 * Real.exp (-dt / tau_facil)

/-- Closed-form solution of R' = (1-R)/tau_rec with initial value R0:
R(dt) = 1 - (1-R0) * exp(-dt/tau_rec). -/
noncomputable def RSol (tau_rec R0 : ℝ) : ℝ → ℝ :=
  fun dt => 1 - (1 - R0) * Real.exp (-dt / tau_rec)

/-- Inter-event relaxation of the deterministic mechanism over an elapsed time
dt: the exact solutions of the linear equations declared in its DERIVATIVE
odes block (each rise and decay variable decays exponentially, R relaxes
toward 1, Use decays toward 0). -/
noncomputable def TMrelax (p : TMParams) (dt : ℝ) (s : TMState) : TMState :=
  { A_AMPA := s.A_AMPA * Real.exp (-dt / p.tau_r_AMPA)
    B_AMPA := s.B_AMPA * Real.exp (-dt / p.tau_d_AMPA)
    A_NMDA := s.A_NMDA * Real.exp (-dt / p.tau_r_NMDA)
    B_NMDA := s.B_NMDA * Real.exp (-dt / p.tau_d_NMDA)
    R := RSol p.tau_rec s.R dt
    Use := UseSol p.tau_facil s.Use dt }

/-- Claim C3: the deterministic NET_RECEIVE block updates the state in closed
form: Use becomes Use + U1*(1-Use), the released fraction is A = Use*R with
the updated Use, R becomes R - A, and each receptor state variable is
incremented by A*weight*factor; no other state variable changes. -/
theorem deterministic_netreceive_closed_form (p : TMParams) (weight : ℝ) (s : TMState) :
    TMnetReceive p weight s =
      { A_AMPA := s.A_AMPA + ((s.Use + p.U1 * (1 - s.Use)) * s.R) * weight
                    * normFactor p.tau_r_AMPA p.tau_d_AMPA
        B_AMPA := s.B_AMPA + ((s.Use + p.U1 * (1 - s.Use)) * s.R) * weight
                    * normFactor p.tau_r_AMPA p.tau_d_AMPA
        A_NMDA := s.A_NMDA + ((s.Use + p.U1 * (1 - s.Use)) * s.R) * weight
                    * normFactor p.tau_r_NMDA p.tau_d_NMDA
        B_NMDA := s.B_NMDA + ((s.Use + p.U1 * (1 - s.Use)) * s.R) * weight
                    * normFactor p.tau_r_NMDA p.tau_d_NMDA
        R := s.R - (s.Use + p.U1 * (1 - s.Use)) * s.R
        Use := s.Use + p.U1 * (1 - s.Use) } := rfl

/-- State of the stochastic mechanism: the STATE block of
StochasticTsodyksMarkram_AMPA_NMDA.mod (A_AMPA, B_AMPA, A_NMDA, B_NMDA, Use)
together with the ASSIGNED release-site variable R and the per-connection
NET_RECEIVE argument tsyn (time of the last state change). -/
structure StochState where
  A_AMPA : ℝ
  B_AMPA : ℝ
  A_NMDA : ℝ
  B_NMDA : ℝ
  Use : ℝ
  R : ℝ
  tsyn : ℝ

/-- Initial state of the stochastic mechanism: the INITIAL block zeroes the
rise and decay variables and sets R = 1, Use = 0; the INITIAL block inside
NET_RECEIVE sets tsyn to the creation time t0 of the connection. -/
noncomputable def stochInit (t0 : ℝ) : StochState :=
  { A_AMPA := 0, B_AMPA := 0, A_NMDA := 0, B_NMDA := 0, Use := 0, R := 1, tsyn := t0 }

/-- Recovery step of the stochastic NET_RECEIVE block (the "if (R == 0)"
branch): when the site is unrecovered, draw one uniform number; if it exceeds
the survival probability Psurv = exp(-(t-tsyn)/tau_rec) set R = 1, otherwise
reset tsyn = t.  The draw stream rng is consumed at index k. -/
noncomputable def stochRecovery (p : TMParams) (t : ℝ) (rng : ℕ → ℝ) (k : ℕ)
    (s : StochState) : StochState × ℕ :=
  if s.R = 0 then
    if rng k > Real.exp (-(t - s.tsyn) / p.tau_rec) then ({ s with R := 1 }, k + 1)
    else ({ s with tsyn := t }, k + 1)
  else (s, k)

/-- Release step of the stochastic NET_RECEIVE block (the "if (R == 1)"
branch): when the site is recovered, draw one uniform number; if it is
strictly below Use, release: set tsyn = t, R = 0 and increment each receptor
rise and decay variable by weight*factor. -/
noncomputable def stochRelease (p : TMParams) (weight t : ℝ) (rng : ℕ → ℝ) (k : ℕ)
    (s : StochState) : StochState × ℕ :=
  if s.R = 1 then
    if rng k < s.Use then
      ({ s with
          tsyn := t
          R := 0
          A_AMPA := s.A_AMPA + weight * normFactor p.tau_r_AMPA p.tau_d_AMPA
          B_AMPA := s.B_AMPA + weight * normFactor p.tau_r_AMPA p.tau_d_AMPA
          A_NMDA := s.A_NMDA + weight * normFactor p.tau_r_NMDA p.tau_d_NMDA
          B_NMDA := s.B_NMDA + weight * normFactor p.tau_r_NMDA p.tau_d_NMDA }, k + 1)
    else (s, k + 1)
  else (s, k)

/-- NET_RECEIVE block of the stochastic mod file: first Use = Use + U1*(1-Use),
then the recovery step, then the release step, consuming uniform draws from
rng in program order starting at index k. -/
noncomputable def stochNetReceive (p : TMParams) (weight t : ℝ) (rng : ℕ → ℝ) (k : ℕ)
    (s : StochState) : StochState × ℕ :=
  let s0 := { s with Use := s.Use + p.U1 * (1 - s.Use) }
  let r := stochRecovery p t rng k s0
  stochRelease p weight t rng r.2 r.1

/-- Inter-event relaxation of the stochastic mechanism over an elapsed time
dt: the exact solutions of its DERIVATIVE odes block.  The block declares
equations only for the rise and decay variables and Use; R and tsyn are not
state variables there and do not change between events. -/
noncomputable def stochRelax (p : TMParams) (dt : ℝ) (s : StochState) : StochState :=
  { s with
    A_AMPA := s.A_AMPA * Real.exp (-dt / p.tau_r_AMPA)
    B_AMPA := s.B_AMPA * Real.exp (-dt / p.tau_d_AMPA)
    A_NMDA := s.A_NMDA * Real.exp (-dt / p.tau_r_NMDA)
    B_NMDA := s.B_NMDA * Real.exp (-dt / p.tau_d_NMDA)
    Use := UseSol p.tau_facil s.Use dt }

/-- Operations applied to a stochastic synapse after initialization: a
presynaptic event handled by NET_RECEIVE at time t with a given weight, or
the relaxation over an elapsed time dt between events. -/
inductive StochOp where
  | event : ℝ → ℝ → StochOp
  | relax : ℝ → StochOp

/-- Run a sequence of operations on the stochastic mechanism, threading the
index into the uniform draw stream. -/
noncomputable def stochRun (p : TMParams) (rng : ℕ → ℝ) :
    List StochOp → StochState × ℕ → StochState × ℕ
  | [], sk => sk
  | StochOp.event w t :: ops, sk => stochRun p rng ops (stochNetReceive p w t rng sk.2 sk.1)
  | StochOp.relax dt :: ops, sk => stochRun p rng ops (stochRelax p dt sk.1, sk.2)

/-- Claim C1: at an event arriving with the release site unrecovered (R = 0),
the recovery step of the stochastic NET_RECEIVE block consumes exactly one
uniform draw u = rng k, sets the site to recovered iff u exceeds the survival
probability exp(-(t-tsyn)/tau_rec) computed from the elapsed time since the
last state change, and otherwise leaves the site unrecovered with tsyn reset
to the current time t. -/
theorem stochastic_recovery_step_spec (p : TMParams) (t : ℝ) (rng : ℕ → ℝ) (k : ℕ)
    (s : StochState) (hR : s.R = 0) :
    (stochRecovery p t rng k s).2 = k + 1
    ∧ ((stochRecovery p t rng k s).1.R = 1 ↔ rng k > Real.exp (-(t - s.tsyn) / p.tau_rec))
    ∧ (rng k > Real.exp (-(t - s.tsyn) / p.tau_rec) →
        (stochRecovery p t rng k s).1 = { s with R := 1 })
    ∧ (¬ rng k > Real.exp (-(t - s.tsyn) / p.tau_rec) →
        (stochRecovery p t rng k s).1 = { s with tsyn := t }) := by
  unfold stochRecovery
  rw [if_pos hR]
  by_cases h : rng k > Real.exp (-(t - s.tsyn) / p.tau_rec)
  · rw [if_pos h]
    exact ⟨rfl, ⟨fun _ => h, fun _ => rfl⟩, fun _ => rfl, fun hc => absurd h hc⟩
  · rw [if_neg h]
    refine ⟨rfl, ⟨fun h1 => ?_, fun hh => absurd hh h⟩, fun hh => absurd hh h, fun _ => rfl⟩
    exact absurd (hR.symm.trans h1) (by norm_num)

/-- A sample unrecovered release-site state used to witness the stochastic
event-handler theorems. -/
noncomputable def unrecState : StochState :=
  { A_AMPA := 0, B_AMPA := 0, A_NMDA := 0, B_NMDA := 0, Use := 0, R := 0, tsyn := 0 }

/-- Witness for claim C1: the recovery step at a concrete unrecovered state. -/
theorem stochastic_recovery_step_spec_witness :
    unrecState.R = 0
    ∧ ((stochRecovery stochParams 0 (fun _ => 2) 0 unrecState).2 = 0 + 1
      ∧ ((stochRecovery stochParams 0 (fun _ => 2) 0 unrecState).1.R = 1
          ↔ (fun _ : ℕ => (2:ℝ)) 0
              > Real.exp (-(0 - unrecState.tsyn) / stochParams.tau_rec))
      ∧ ((fun _ : ℕ => (2:ℝ)) 0 > Real.exp (-(0 - unrecState.tsyn) / stochParams.tau_rec) →
          (stochRecovery stochParams 0 (fun _ => 2) 0 unrecState).1
            = { unrecState with R := 1 })
      ∧ (¬ (fun _ : ℕ => (2:ℝ)) 0 > Real.exp (-(0 - unrecState.tsyn) / stochParams.tau_rec) →
          (stochRecovery stochParams 0 (fun _ => 2) 0 unrecState).1
            = { unrecState with tsyn := 0 })) :=
  ⟨rfl, stochastic_recovery_step_spec stochParams 0 (fun _ => 2) 0 unrecState rfl⟩

/-- Claim C2: in the stochastic NET_RECEIVE block, with r the state and draw
index reached after the Use update and the recovery step, a release (both
AMPA and both NMDA variables incremented by weight*factor, R set to 0, tsyn
reset to t) happens iff r has R = 1 and the next uniform draw is strictly
below the running release probability Use, which was first updated to
Use + U1*(1-Use) at the start of the event; a site recovered during the same
event can therefore release at that event, and a release leaves R = 0. -/
theorem stochastic_release_spec (p : TMParams) (weight t : ℝ) (rng : ℕ → ℝ) (k : ℕ)
    (s : StochState) :
    let r := stochRecovery p t rng k { s with Use := s.Use + p.U1 * (1 - s.Use) }
    r.1.Use = s.Use + p.U1 * (1 - s.Use)
    ∧ (r.1.R = 1 → rng r.2 < r.1.Use →
        stochNetReceive p weight t rng k s =
          ({ r.1 with
              tsyn := t
              R := 0
              A_AMPA := r.1.A_AMPA + weight * normFactor p.tau_r_AMPA p.tau_d_AMPA
              B_AMPA := r.1.B_AMPA + weight * normFactor p.tau_r_AMPA p.tau_d_AMPA
              A_NMDA := r.1.A_NMDA + weight * normFactor p.tau_r_NMDA p.tau_d_NMDA
              B_NMDA := r.1.B_NMDA + weight * normFactor p.tau_r_NMDA p.tau_d_NMDA },
            r.2 + 1))
    ∧ (r.1.R = 1 → ¬ rng r.2 < r.1.Use →
        stochNetReceive p weight t rng k s = (r.1, r.2 + 1))
    ∧ (r.1.R ≠ 1 → stochNetReceive p weight t rng k s = (r.1, r.2)) := by
  intro r
  have hUse : r.1.Use = s.Use + p.U1 * (1 - s.Use) := by
    show (stochRecovery p t rng k { s with Use := s.Use + p.U1 * (1 - s.Use) }).1.Use = _
    unfold stochRecovery
    split_ifs <;> rfl
  refine ⟨hUse, ?_, ?_, ?_⟩
  · intro hR1 hdraw
    show stochRelease p weight t rng r.2 r.1 = _
    unfold stochRelease
    rw [if_pos hR1, if_pos hdraw]
  · intro hR1 hdraw
    show stochRelease p weight t rng r.2 r.1 = _
    unfold stochRelease
    rw [if_pos hR1, if_neg hdraw]
  · intro hR1
    show stochRelease p weight t rng r.2 r.1 = _
    unfold stochRelease
    rw [if_neg hR1]

/-- A sample recovered release-site state used to witness the stochastic
release theorem. -/
noncomputable def recState : StochState :=
  { A_AMPA := 0, B_AMPA := 0, A_NMDA := 0, B_NMDA := 0, Use := 0, R := 1, tsyn := 0 }

/-- Witness for claim C2: at a concrete recovered state with a draw of 0,
which is strictly below the updated Use = 0.5, the event releases. -/
theorem stochastic_release_spec_witness :
    ((stochRecovery stochParams 0 (fun _ => 0) 0
        { recState with Use := recState.Use + stochParams.U1 * (1 - recState.Use) }).1.R = 1
      ∧ (fun _ : ℕ => (0:ℝ))
          (stochRecovery stochParams 0 (fun _ => 0) 0
            { recState with Use := recState.Use + stochParams.U1 * (1 - recState.Use) }).2
        < (stochRecovery stochParams 0 (fun _ => 0) 0
            { recState with Use := recState.Use + stochParams.U1 * (1 - recState.Use) }).1.Use)
    ∧ stochNetReceive stochParams 1 0 (fun _ => 0) 0 recState
        = ({ (stochRecovery stochParams 0 (fun _ => 0) 0
                { recState with Use := recState.Use + stochParams.U1 * (1 - recState.Use) }).1 with
            tsyn := 0
            R := 0
            A_AMPA := (stochRecovery stochParams 0 (fun _ => 0) 0
                { recState with Use := recState.Use + stochParams.U1 * (1 - recState.Use) }).1.A_AMPA
              + 1 * normFactor stochParams.tau_r_AMPA stochParams.tau_d_AMPA
            B_AMPA := (stochRecovery stochParams 0 (fun _ => 0) 0
                { recState with Use := recState.Use + stochParams.U1 * (1 - recState.Use) }).1.B_AMPA
              + 1 * normFactor stochParams.tau_r_AMPA stochParams.tau_d_AMPA
            A_NMDA := (stochRecovery stochParams 0 (fun _ => 0) 0
                { recState with Use := recState.Use + stochParams.U1 * (1 - recState.Use) }).1.A_NMDA
              + 1 * normFactor stochParams.tau_r_NMDA stochParams.tau_d_NMDA
            B_NMDA := (stochRecovery stochParams 0 (fun _ => 0) 0
                { recState with Use := recState.Use + stochParams.U1 * (1 - recState.Use) }).1.B_NMDA
              + 1 * normFactor stochParams.tau_r_NMDA stochParams.tau_d_NMDA },
          (stochRecovery stochParams 0 (fun _ => 0) 0
            { recState with Use := recState.Use + stochParams.U1 * (1 - recState.Use) }).2 + 1) := by
  have hrec : stochRecovery stochParams 0 (fun _ => 0) 0
      { recState with Use := recState.Use + stochParams.U1 * (1 - recState.Use) }
      = ({ recState with Use := recState.Use + stochParams.U1 * (1 - recState.Use) }, 0) := by
    unfold stochRecovery
    rw [if_neg]
    simp [recState]
  have hR1 : (stochRecovery stochParams 0 (fun _ => 0) 0
      { recState with Use := recState.Use + stochParams.U1 * (1 - recState.Use) }).1.R = 1 := by
    rw [hrec]
    rfl
  have hdraw : (fun _ : ℕ => (0:ℝ))
      (stochRecovery stochParams 0 (fun _ => 0) 0
        { recState with Use := recState.Use + stochParams.U1 * (1 - recState.Use) }).2
      < (stochRecovery stochParams 0 (fun _ => 0) 0
        { recState with Use := recState.Use + stochParams.U1 * (1 - recState.Use) }).1.Use := by
    rw [hrec]
    show (0:ℝ) < recState.Use + stochParams.U1 * (1 - recState.Use)
    norm_num [recState, stochParams]
  exact ⟨⟨hR1, hdraw⟩,
    (stochastic_release_spec stochParams 1 0 (fun _ => 0) 0 recState).2.1 hR1 hdraw⟩

/-- The stochastic NET_RECEIVE block only ever assigns 0 or 1 to R. -/
lemma stochNetReceive_R_mem (p : TMParams) (weight t : ℝ) (rng : ℕ → ℝ) (k : ℕ)
    (s : StochState) (h : s.R = 0 ∨ s.R = 1) :
    (stochNetReceive p weight t rng k s).1.R = 0
    ∨ (stochNetReceive p weight t rng k s).1.R = 1 := by
  unfold stochNetReceive stochRecovery stochRelease
  dsimp only
  split_ifs <;> simp_all

/-- The relaxation between events does not change R in the stochastic
mechanism (R has no equation in its DERIVATIVE block). -/
lemma stochRelax_R (p : TMParams) (dt : ℝ) (s : StochState) :
    (stochRelax p dt s).R = s.R := rfl

/-- Membership of R in the two-element set is invariant under any operation
sequence. -/
lemma stochRun_R_mem (p : TMParams) (rng : ℕ → ℝ) (ops : List StochOp) :
    ∀ sk : StochState × ℕ, (sk.1.R = 0 ∨ sk.1.R = 1) →
      ((stochRun p rng ops sk).1.R = 0 ∨ (stochRun p rng ops sk).1.R = 1) := by
  induction ops with
  | nil => intro sk h; exact h
  | cons op ops ih =>
    intro sk h
    cases op with
    | event w t => exact ih _ (stochNetReceive_R_mem p w t rng sk.2 sk.1 h)
    | relax dt => exact ih _ (by rw [stochRelax_R]; exact h)

/-- Claim C6: in the stochastic mechanism R is two-valued: the INITIAL block
sets R = 1, and after any sequence of events and inter-event relaxations R is
either 0 (unrecovered) or 1 (recovered); no operation assigns any other
value. -/
theorem stochastic_R_two_valued (p : TMParams) (rng : ℕ → ℝ) (t0 : ℝ)
    (ops : List StochOp) (k : ℕ) :
    (stochInit t0).R = 1
    ∧ ((stochRun p rng ops (stochInit t0, k)).1.R = 0
        ∨ (stochRun p rng ops (stochInit t0, k)).1.R = 1) :=
  ⟨rfl, stochRun_R_mem p rng ops (stochInit t0, k) (Or.inr rfl)⟩

/-- The closed form UseSol solves the declared equation Use' = -Use/tau_facil
at every time. -/
lemma hasDerivAt_UseSol (tau_facil Use0 dt : ℝ) :
    HasDerivAt (UseSol tau_facil Use0) (UseRhs tau_facil (UseSol tau_facil Use0 dt)) dt := by
  have h1 : HasDerivAt (fun u : ℝ => -u / tau_facil) (-1 / tau_facil) dt := by
    simpa using (hasDerivAt_id dt).neg.div_const tau_facil
  have h3 := h1.exp.const_mul Use0
  unfold UseSol UseRhs
  convert h3 using 1
  ring

/-- The closed form RSol solves the declared equation R' = (1-R)/tau_rec at
every time. -/
lemma hasDerivAt_RSol (tau_rec R0 dt : ℝ) :
    HasDerivAt (RSol tau_rec R0) (RRhs tau_rec (RSol tau_rec R0 dt)) dt := by
  have h1 : HasDerivAt (fun u : ℝ => -u / tau_rec) (-1 / tau_rec) dt := by
    simpa using (hasDerivAt_id dt).neg.div_const tau_rec
  have h3 := (h1.exp.const_mul (1 - R0)).const_sub 1
  unfold RSol RRhs
  convert h3 using 1
  ring

/-- Exponential comparison used by the relaxation bounds: for a positive time
constant, larger elapsed time gives a smaller decay factor. -/
lemma exp_decay_le (tau : ℝ) (htau : 0 < tau) {a b : ℝ} (hab : a ≤ b) :
    Real.exp (-b / tau) ≤ Real.exp (-a / tau) :=
  Real.exp_le_exp.mpr ((div_le_div_iff_of_pos_right htau).mpr (neg_le_neg hab))

/-- UseSol is antitone for a nonnegative start. -/
lemma UseSol_anti (tau Use0 : ℝ) (htau : 0 < tau) (hU : 0 ≤ Use0) {a b : ℝ}
    (hab : a ≤ b) : UseSol tau Use0 b ≤ UseSol tau Use0 a := by
  unfold UseSol
  exact mul_le_mul_of_nonneg_left (exp_decay_le tau htau hab) hU

/-- RSol is monotone toward 1 for a start below 1. -/
lemma RSol_mono (tau R0 : ℝ) (htau : 0 < tau) (hR : R0 ≤ 1) {a b : ℝ}
    (hab : a ≤ b) : RSol tau R0 a ≤ RSol tau R0 b := by
  unfold RSol
  have h1 : 0 ≤ 1 - R0 := by linarith
  have h2 := mul_le_mul_of_nonneg_left (exp_decay_le tau htau hab) h1
  linarith

/-- The decay factor tends to zero at large times. -/
lemma exp_decay_tendsto (tau : ℝ) (htau : 0 < tau) :
    Filter.Tendsto (fun dt : ℝ => Real.exp (-dt / tau)) Filter.atTop (nhds 0) := by
  have h1 : Filter.Tendsto (fun dt : ℝ => dt / tau) Filter.atTop Filter.atTop :=
    Filter.tendsto_id.atTop_div_const htau
  have h2 : Filter.Tendsto (fun dt : ℝ => Real.exp (-(dt / tau))) Filter.atTop (nhds 0) :=
    Real.tendsto_exp_neg_atTop_nhds_zero.comp h1
  exact h2.congr fun x => by rw [neg_div]

/-- UseSol tends to its baseline 0. -/
lemma UseSol_tendsto (tau Use0 : ℝ) (htau : 0 < tau) :
    Filter.Tendsto (UseSol tau Use0) Filter.atTop (nhds 0) := by
  have h := (exp_decay_tendsto tau htau).const_mul Use0
  unfold UseSol
  simpa using h

/-- RSol tends to its baseline 1. -/
lemma RSol_tendsto (tau R0 : ℝ) (htau : 0 < tau) :
    Filter.Tendsto (RSol tau R0) Filter.atTop (nhds 1) := by
  have h := (exp_decay_tendsto tau htau).const_mul (1 - R0)
  have hc : Filter.Tendsto (fun _ : ℝ => (1:ℝ)) Filter.atTop (nhds 1) := tendsto_const_nhds
  have h2 := hc.sub h
  unfold RSol
  simpa using h2

/-- Claim C4: between events and for positive time constants, the exact
solutions of the declared ODEs are Use(dt) = Use(0)*exp(-dt/tau_facil)
(baseline 0, equation shared by both mechanisms) and, for the deterministic
mechanism, R(dt) = 1-(1-R(0))*exp(-dt/tau_rec) (baseline 1): both closed
forms satisfy the declared derivative equations with the right initial
values, Use decreases monotonically with limit 0, and R moves monotonically
toward 1 with limit 1. -/
theorem tm_ode_exact_solutions (tau_facil tau_rec Use0 R0 : ℝ)
    (hf : 0 < tau_facil) (hr : 0 < tau_rec) :
    (∀ dt, HasDerivAt (UseSol tau_facil Use0) (UseRhs tau_facil (UseSol tau_facil Use0 dt)) dt)
    ∧ (∀ dt, HasDerivAt (RSol tau_rec R0) (RRhs tau_rec (RSol tau_rec R0 dt)) dt)
    ∧ UseSol tau_facil Use0 0 = Use0
    ∧ RSol tau_rec R0 0 = R0
    ∧ (∀ dt, UseSol tau_facil Use0 dt = Use0 * Real.exp (-dt / tau_facil))
    ∧ (∀ dt, RSol tau_rec R0 dt = 1 - (1 - R0) * Real.exp (-dt / tau_rec))
    ∧ (0 ≤ Use0 → ∀ a b : ℝ, a ≤ b → UseSol tau_facil Use0 b ≤ UseSol tau_facil Use0 a)
    ∧ Filter.Tendsto (UseSol tau_facil Use0) Filter.atTop (nhds 0)
    ∧ (R0 ≤ 1 → ∀ a b : ℝ, a ≤ b → RSol tau_rec R0 a ≤ RSol tau_rec R0 b)
    ∧ Filter.Tendsto (RSol tau_rec R0) Filter.atTop (nhds 1) := by
  refine ⟨fun dt => hasDerivAt_UseSol tau_facil Use0 dt,
    fun dt => hasDerivAt_RSol tau_rec R0 dt, by simp [UseSol], by simp [RSol],
    fun dt => rfl, fun dt => rfl,
    fun hU a b hab => UseSol_anti tau_facil Use0 hf hU hab,
    UseSol_tendsto tau_facil Use0 hf,
    fun hR a b hab => RSol_mono tau_rec R0 hr hR hab,
    RSol_tendsto tau_rec R0 hr⟩

/-- Witness for claim C4 at unit time constants with Use(0) = 0 and
R(0) = 1/2. -/
theorem tm_ode_exact_solutions_witness :
    ((0:ℝ) < 1 ∧ (0:ℝ) < 1)
    ∧ ((∀ dt, HasDerivAt (UseSol 1 0) (UseRhs 1 (UseSol 1 0 dt)) dt)
    ∧ (∀ dt, HasDerivAt (RSol 1 (1/2)) (RRhs 1 (RSol 1 (1/2) dt)) dt)
    ∧ UseSol 1 0 0 = 0
    ∧ RSol 1 (1/2) 0 = 1/2
    ∧ (∀ dt, UseSol 1 0 dt = 0 * Real.exp (-dt / 1))
    ∧ (∀ dt, RSol 1 (1/2) dt = 1 - (1 - 1/2) * Real.exp (-dt / 1))
    ∧ ((0:ℝ) ≤ 0 → ∀ a b : ℝ, a ≤ b → UseSol 1 0 b ≤ UseSol 1 0 a)
    ∧ Filter.Tendsto (UseSol 1 0) Filter.atTop (nhds 0)
    ∧ ((1:ℝ)/2 ≤ 1 → ∀ a b : ℝ, a ≤ b → RSol 1 (1/2) a ≤ RSol 1 (1/2) b)
    ∧ Filter.Tendsto (RSol 1 (1/2)) Filter.atTop (nhds 1)) :=
  ⟨⟨by norm_num, by norm_num⟩,
    tm_ode_exact_solutions 1 1 0 (1/2) (by norm_num) (by norm_num)⟩

/-- The dual-exponential shape of one receptor: the difference B(t) - A(t) of
the decay and rise variables after a unit increment, as the solutions of the
DERIVATIVE block give it (decay with tau_d minus decay with tau_r). -/
noncomputable def dualExpShape (tau_r tau_d : ℝ) : ℝ → ℝ :=
  fun t => Real.exp (-t / tau_d) - Real.exp (-t / tau_r)

/-- Conductance gmax*(B(t)-A(t)) after a single NET_RECEIVE event from rest:
both state variables are incremented by weight*factor and then decay with
their respective time constants. -/
noncomputable def singleEventG (gmax tau_r tau_d weight : ℝ) (t : ℝ) : ℝ :=
  gmax * (weight * normFactor tau_r tau_d * Real.exp (-t / tau_d)
        - weight * normFactor tau_r tau_d * Real.exp (-t / tau_r))

/-- Positivity of the time to peak for admissible time constants. -/
lemma timeToPeak_pos {tau_r tau_d : ℝ} (h0 : 0 < tau_r) (hrd : tau_r < tau_d) :
    0 < timeToPeak tau_r tau_d := by
  have hd : 0 < tau_d := h0.trans hrd
  unfold timeToPeak
  exact mul_pos (div_pos (mul_pos h0 hd) (sub_pos.mpr hrd))
    (Real.log_pos ((one_lt_div h0).mpr hrd))

/-- Product identity defining the time to peak. -/
lemma timeToPeak_mul_eq {tau_r tau_d : ℝ} (h0 : 0 < tau_r) (hrd : tau_r < tau_d) :
    timeToPeak tau_r tau_d * (1 / tau_r - 1 / tau_d)
      = Real.log tau_d - Real.log tau_r := by
  have hd : 0 < tau_d := h0.trans hrd
  have hne : tau_d - tau_r ≠ 0 := sub_ne_zero.mpr (ne_of_gt hrd)
  unfold timeToPeak
  rw [Real.log_div (ne_of_gt hd) (ne_of_gt h0)]
  field_simp

/-- Below the time to peak, the rise term decays faster in weighted form:
characterization of the positive-derivative region. -/
lemma exp_ratio_lt {tau_r tau_d : ℝ} (h0 : 0 < tau_r) (hrd : tau_r < tau_d) (t : ℝ) :
    Real.exp (-t / tau_d) / tau_d < Real.exp (-t / tau_r) / tau_r
      ↔ t < timeToPeak tau_r tau_d := by
  have hd : 0 < tau_d := h0.trans hrd
  have hc : 0 < 1 / tau_r - 1 / tau_d := by
    have := one_div_lt_one_div_of_lt h0 hrd
    linarith
  have ht : t * (1 / tau_r - 1 / tau_d) = -t / tau_d - (-t / tau_r) := by ring
  have e1 : Real.exp (-t / tau_d) * tau_r = Real.exp (-t / tau_d + Real.log tau_r) := by
    rw [Real.exp_add, Real.exp_log h0]
  have e2 : Real.exp (-t / tau_r) * tau_d = Real.exp (-t / tau_r + Real.log tau_d) := by
    rw [Real.exp_add, Real.exp_log hd]
  rw [div_lt_div_iff₀ hd h0, e1, e2, Real.exp_lt_exp]
  constructor
  · intro h
    have hkey : t * (1 / tau_r - 1 / tau_d) < Real.log tau_d - Real.log tau_r := by
      linarith
    rw [← timeToPeak_mul_eq h0 hrd] at hkey
    exact (mul_lt_mul_right hc).mp hkey
  · intro h
    have hkey := (mul_lt_mul_right hc).mpr h
    rw [timeToPeak_mul_eq h0 hrd] at hkey
    linarith

/-- Above the time to peak, the weighted comparison reverses:
characterization of the negative-derivative region. -/
lemma exp_ratio_gt {tau_r tau_d : ℝ} (h0 : 0 < tau_r) (hrd : tau_r < tau_d) (t : ℝ) :
    Real.exp (-t / tau_r) / tau_r < Real.exp (-t / tau_d) / tau_d
      ↔ timeToPeak tau_r tau_d < t := by
  have hd : 0 < tau_d := h0.trans hrd
  have hc : 0 < 1 / tau_r - 1 / tau_d := by
    have := one_div_lt_one_div_of_lt h0 hrd
    linarith
  have ht : t * (1 / tau_r - 1 / tau_d) = -t / tau_d - (-t / tau_r) := by ring
  have e1 : Real.exp (-t / tau_d) * tau_r = Real.exp (-t / tau_d + Real.log tau_r) := by
    rw [Real.exp_add, Real.exp_log h0]
  have e2 : Real.exp (-t / tau_r) * tau_d = Real.exp (-t / tau_r + Real.log tau_d) := by
    rw [Real.exp_add, Real.exp_log hd]
  rw [div_lt_div_iff₀ h0 hd, e2, e1, Real.exp_lt_exp]
  constructor
  · intro h
    have hkey : Real.log tau_d - Real.log tau_r < t * (1 / tau_r - 1 / tau_d) := by
      linarith
    rw [← timeToPeak_mul_eq h0 hrd] at hkey
    exact (mul_lt_mul_right hc).mp hkey
  · intro h
    have hkey := (mul_lt_mul_right hc).mpr h
    rw [timeToPeak_mul_eq h0 hrd] at hkey
    linarith

/-- Derivative of the dual-exponential shape. -/
lemma hasDerivAt_dualExpShape (tau_r tau_d t : ℝ) :
    HasDerivAt (dualExpShape tau_r tau_d)
      (Real.exp (-t / tau_r) / tau_r - Real.exp (-t / tau_d) / tau_d) t := by
  have h1 : HasDerivAt (fun u : ℝ => -u / tau_d) (-1 / tau_d) t := by
    simpa using (hasDerivAt_id t).neg.div_const tau_d
  have h2 : HasDerivAt (fun u : ℝ => -u / tau_r) (-1 / tau_r) t := by
    simpa using (hasDerivAt_id t).neg.div_const tau_r
  have h3 := h1.exp.sub h2.exp
  unfold dualExpShape
  convert h3 using 1
  ring

/-- The dual-exponential shape attains its global maximum at the time to
peak. -/
lemma dualExpShape_le_peak {tau_r tau_d : ℝ} (h0 : 0 < tau_r) (hrd : tau_r < tau_d)
    (t : ℝ) :
    dualExpShape tau_r tau_d t ≤ dualExpShape tau_r tau_d (timeToPeak tau_r tau_d) := by
  have hcont : Continuous (dualExpShape tau_r tau_d) :=
    Differentiable.continuous fun u => (hasDerivAt_dualExpShape tau_r tau_d u).differentiableAt
  have hmono : StrictMonoOn (dualExpShape tau_r tau_d) (Set.Iic (timeToPeak tau_r tau_d)) := by
    apply strictMonoOn_of_deriv_pos (convex_Iic _) hcont.continuousOn
    intro x hx
    rw [interior_Iic] at hx
    rw [(hasDerivAt_dualExpShape tau_r tau_d x).deriv]
    have := (exp_ratio_lt h0 hrd x).mpr hx
    linarith
  have hanti : StrictAntiOn (dualExpShape tau_r tau_d) (Set.Ici (timeToPeak tau_r tau_d)) := by
    apply strictAntiOn_of_deriv_neg (convex_Ici _) hcont.continuousOn
    intro x hx
    rw [interior_Ici] at hx
    rw [(hasDerivAt_dualExpShape tau_r tau_d x).deriv]
    have := (exp_ratio_gt h0 hrd x).mpr hx
    linarith
  rcases le_or_lt t (timeToPeak tau_r tau_d) with h | h
  · exact hmono.monotoneOn (Set.mem_Iic.mpr h) (Set.mem_Iic.mpr le_rfl) h
  · exact le_of_lt (hanti (Set.mem_Ici.mpr le_rfl) (Set.mem_Ici.mpr h.le) h)

/-- The dual-exponential shape at the time to peak is strictly positive. -/
lemma dualExpShape_peak_pos {tau_r tau_d : ℝ} (h0 : 0 < tau_r) (hrd : tau_r < tau_d) :
    0 < dualExpShape tau_r tau_d (timeToPeak tau_r tau_d) := by
  have hd : 0 < tau_d := h0.trans hrd
  have htp := timeToPeak_pos h0 hrd
  unfold dualExpShape
  have h2 := div_lt_div_of_pos_left htp h0 hrd
  have h3 : -timeToPeak tau_r tau_d / tau_r < -timeToPeak tau_r tau_d / tau_d := by
    rw [neg_div, neg_div]
    exact neg_lt_neg h2
  have h4 := Real.exp_lt_exp.mpr h3
  linarith

/-- The normalization factor is the reciprocal of the shape at its peak. -/
lemma normFactor_eq (tau_r tau_d : ℝ) :
    normFactor tau_r tau_d
      = 1 / dualExpShape tau_r tau_d (timeToPeak tau_r tau_d) := by
  unfold normFactor dualExpShape
  rw [neg_add_eq_sub]

/-- The normalization factor is positive for admissible time constants. -/
lemma normFactor_pos {tau_r tau_d : ℝ} (h0 : 0 < tau_r) (hrd : tau_r < tau_d) :
    0 < normFactor tau_r tau_d := by
  rw [normFactor_eq]
  exact one_div_pos.mpr (dualExpShape_peak_pos h0 hrd)

/-- Claim C5: for 0 < tau_r < tau_d, the conductance after a single event
from rest is maximal at the time to peak tp computed in INITIAL, and with
the INITIAL normalization factor the peak conductance gmax*(B(tp)-A(tp))
equals gmax*weight exactly. -/
theorem dual_exp_peak_normalization (gmax tau_r tau_d weight : ℝ)
    (h0 : 0 < tau_r) (hrd : tau_r < tau_d) (hw : 0 ≤ weight) (hg : 0 ≤ gmax) :
    (∀ t : ℝ, singleEventG gmax tau_r tau_d weight t
        ≤ singleEventG gmax tau_r tau_d weight (timeToPeak tau_r tau_d))
    ∧ singleEventG gmax tau_r tau_d weight (timeToPeak tau_r tau_d) = gmax * weight := by
  have hpos := dualExpShape_peak_pos h0 hrd
  have key : ∀ t, singleEventG gmax tau_r tau_d weight t
      = gmax * weight * normFactor tau_r tau_d * dualExpShape tau_r tau_d t := by
    intro t
    unfold singleEventG dualExpShape
    ring
  constructor
  · intro t
    rw [key, key]
    have hc : 0 ≤ gmax * weight * normFactor tau_r tau_d :=
      mul_nonneg (mul_nonneg hg hw) (le_of_lt (normFactor_pos h0 hrd))
    exact mul_le_mul_of_nonneg_left (dualExpShape_le_peak h0 hrd t) hc
  · rw [key, normFactor_eq]
    field_simp

/-- Witness for claim C5 at tau_r = 1, tau_d = 2, unit weight and gmax. -/
theorem dual_exp_peak_normalization_witness :
    ((0:ℝ) < 1 ∧ (1:ℝ) < 2 ∧ (0:ℝ) ≤ 1 ∧ (0:ℝ) ≤ 1)
    ∧ ((∀ t : ℝ, singleEventG 1 1 2 1 t ≤ singleEventG 1 1 2 1 (timeToPeak 1 2))
      ∧ singleEventG 1 1 2 1 (timeToPeak 1 2) = 1 * 1) :=
  ⟨⟨by norm_num, by norm_num, by norm_num, by norm_num⟩,
    dual_exp_peak_normalization 1 1 2 1 (by norm_num) (by norm_num)
      (by norm_num) (by norm_num)⟩

/-- Magnesium gating term of the BREAKPOINT blocks, identical in both mod
files (Jahr and Stevens 1990 kinetics):
mggate = 1 / (1 + exp(0.062 * -v) * (mg / 3.57)). -/
noncomputable def mggateFn (mg v : ℝ) : ℝ :=
  1 / (1 + Real.exp (0.062 * -v) * (mg / 3.57))

/-- Outputs computed by the BREAKPOINT block of either mod file. -/
structure BreakpointOut where
  g_AMPA : ℝ
  mggate : ℝ
  g_NMDA : ℝ
  g : ℝ
  i_AMPA : ℝ
  i_NMDA : ℝ
  i : ℝ

/-- BREAKPOINT block of both mod files (textually identical in the two
files), as a function of the membrane voltage v and the four conductance
state variables: g_AMPA = gmax_AMPA*(B_AMPA-A_AMPA), the magnesium gate,
g_NMDA = mggate*gmax_NMDA*(B_NMDA-A_NMDA), and the currents. -/
noncomputable def breakpointEval (p : TMParams) (v aA bA aN bN : ℝ) : BreakpointOut :=
  let gA := p.gmax_AMPA * (bA - aA)
  let mgg := 1 / (1 + Real.exp (0.062 * -v) * (p.mg / 3.57))
  let gN := mgg * p.gmax_NMDA * (bN - aN)
  { g_AMPA := gA
    mggate := mgg
    g_NMDA := gN
    g := gA + gN
    i_AMPA := gA * (v - p.e)
    i_NMDA := gN * (v - p.e)
    i := gA * (v - p.e) + gN * (v - p.e) }

/-- The magnesium gate is strictly positive for positive magnesium
concentration. -/
lemma mggateFn_pos (mg v : ℝ) (hmg : 0 < mg) : 0 < mggateFn mg v := by
  unfold mggateFn
  have hden : 0 < 1 + Real.exp (0.062 * -v) * (mg / 3.57) := by positivity
  exact one_div_pos.mpr hden

/-- The magnesium gate is strictly below one for positive magnesium
concentration. -/
lemma mggateFn_lt_one (mg v : ℝ) (hmg : 0 < mg) : mggateFn mg v < 1 := by
  unfold mggateFn
  have hterm : 0 < Real.exp (0.062 * -v) * (mg / 3.57) := by positivity
  have hden : 0 < 1 + Real.exp (0.062 * -v) * (mg / 3.57) := by positivity
  rw [div_lt_one hden]
  linarith

/-- The magnesium gate is strictly increasing in the voltage. -/
lemma mggateFn_strictMono (mg : ℝ) (hmg : 0 < mg) {v1 v2 : ℝ} (h : v1 < v2) :
    mggateFn mg v1 < mggateFn mg v2 := by
  unfold mggateFn
  have hexp : Real.exp (0.062 * -v2) < Real.exp (0.062 * -v1) :=
    Real.exp_lt_exp.mpr (by linarith)
  have hfac : 0 < mg / 3.57 := by positivity
  have hlt : 1 + Real.exp (0.062 * -v2) * (mg / 3.57)
      < 1 + Real.exp (0.062 * -v1) * (mg / 3.57) := by
    have := mul_lt_mul_of_pos_right hexp hfac
    linarith
  have hden2 : 0 < 1 + Real.exp (0.062 * -v2) * (mg / 3.57) := by positivity
  exact one_div_lt_one_div_of_lt hden2 hlt

/-- Claim C7: in every BREAKPOINT evaluation of both mechanisms the NMDA
conductance equals mggate*gmax_NMDA*(B_NMDA-A_NMDA) with
mggate = 1/(1+exp(-0.062 v)*(mg/3.57)); for every voltage and positive
magnesium concentration this gate lies strictly between 0 and 1 and is
strictly increasing in the voltage, while the AMPA conductance
gmax_AMPA*(B_AMPA-A_AMPA) carries no gating factor. -/
theorem breakpoint_mggate_spec (p : TMParams) (v aA bA aN bN : ℝ) (hmg : 0 < p.mg) :
    (breakpointEval p v aA bA aN bN).g_NMDA
        = mggateFn p.mg v * p.gmax_NMDA * (bN - aN)
    ∧ (breakpointEval p v aA bA aN bN).mggate = mggateFn p.mg v
    ∧ (breakpointEval p v aA bA aN bN).g_AMPA = p.gmax_AMPA * (bA - aA)
    ∧ 0 < mggateFn p.mg v ∧ mggateFn p.mg v < 1
    ∧ (∀ v1 v2 : ℝ, v1 < v2 → mggateFn p.mg v1 < mggateFn p.mg v2) :=
  ⟨rfl, rfl, rfl, mggateFn_pos p.mg v hmg, mggateFn_lt_one p.mg v hmg,
    fun _ _ h => mggateFn_strictMono p.mg hmg h⟩

/-- Witness for claim C7 at the default deterministic parameters (mg = 1)
and zero voltage and state. -/
theorem breakpoint_mggate_spec_witness :
    (0 < detParams.mg)
    ∧ ((breakpointEval detParams 0 0 0 0 0).g_NMDA
        = mggateFn detParams.mg 0 * detParams.gmax_NMDA * (0 - 0)
    ∧ (breakpointEval detParams 0 0 0 0 0).mggate = mggateFn detParams.mg 0
    ∧ (breakpointEval detParams 0 0 0 0 0).g_AMPA = detParams.gmax_AMPA * (0 - 0)
    ∧ 0 < mggateFn detParams.mg 0 ∧ mggateFn detParams.mg 0 < 1
    ∧ (∀ v1 v2 : ℝ, v1 < v2 → mggateFn detParams.mg v1 < mggateFn detParams.mg v2)) :=
  ⟨by norm_num [detParams],
    breakpoint_mggate_spec detParams 0 0 0 0 0 (by norm_num [detParams])⟩

/-- Claim C10: in the deterministic mechanism with 0 <= U1 <= 1 and
admissible time constants, the bounds 0 <= Use <= 1 and 0 <= R <= 1 hold in
the INITIAL state and are preserved both by the NET_RECEIVE update and by
the inter-event relaxation; consequently the released fraction
A = (Use + U1*(1-Use))*R of an event lies in [0,1] and the event increments
of the four conductance state variables are nonnegative for nonnegative
weight. -/
theorem deterministic_tm_bounds (p : TMParams)
    (hU0 : 0 ≤ p.U1) (hU1 : p.U1 ≤ 1) (htf : 0 < p.tau_facil) (htr : 0 < p.tau_rec)
    (hra : 0 < p.tau_r_AMPA) (hda : p.tau_r_AMPA < p.tau_d_AMPA)
    (hrn : 0 < p.tau_r_NMDA) (hdn : p.tau_r_NMDA < p.tau_d_NMDA) :
    (0 ≤ TMinit.Use ∧ TMinit.Use ≤ 1 ∧ 0 ≤ TMinit.R ∧ TMinit.R ≤ 1)
    ∧ (∀ (s : TMState) (w : ℝ), 0 ≤ s.Use → s.Use ≤ 1 → 0 ≤ s.R → s.R ≤ 1 →
        0 ≤ (TMnetReceive p w s).Use ∧ (TMnetReceive p w s).Use ≤ 1
        ∧ 0 ≤ (TMnetReceive p w s).R ∧ (TMnetReceive p w s).R ≤ 1)
    ∧ (∀ (s : TMState) (dt : ℝ), 0 ≤ dt → 0 ≤ s.Use → s.Use ≤ 1 → 0 ≤ s.R → s.R ≤ 1 →
        0 ≤ (TMrelax p dt s).Use ∧ (TMrelax p dt s).Use ≤ 1
        ∧ 0 ≤ (TMrelax p dt s).R ∧ (TMrelax p dt s).R ≤ 1)
    ∧ (∀ s : TMState, 0 ≤ s.Use → s.Use ≤ 1 → 0 ≤ s.R → s.R ≤ 1 →
        0 ≤ (s.Use + p.U1 * (1 - s.Use)) * s.R
        ∧ (s.Use + p.U1 * (1 - s.Use)) * s.R ≤ 1)
    ∧ (∀ (s : TMState) (w : ℝ), 0 ≤ w → 0 ≤ s.Use → s.Use ≤ 1 → 0 ≤ s.R → s.R ≤ 1 →
        s.A_AMPA ≤ (TMnetReceive p w s).A_AMPA
        ∧ s.B_AMPA ≤ (TMnetReceive p w s).B_AMPA
        ∧ s.A_NMDA ≤ (TMnetReceive p w s).A_NMDA
        ∧ s.B_NMDA ≤ (TMnetReceive p w s).B_NMDA) := by
  have hfrac : ∀ s : TMState, 0 ≤ s.Use → s.Use ≤ 1 → 0 ≤ s.R → s.R ≤ 1 →
      0 ≤ (s.Use + p.U1 * (1 - s.Use)) * s.R
      ∧ (s.Use + p.U1 * (1 - s.Use)) * s.R ≤ 1 := by
    intro s h1 h2 h3 h4
    constructor
    · apply mul_nonneg _ h3
      nlinarith
    · nlinarith [mul_nonneg (sub_nonneg.mpr hU1) (sub_nonneg.mpr h2)]
  refine ⟨⟨by norm_num [TMinit], by norm_num [TMinit], by norm_num [TMinit],
      by norm_num [TMinit]⟩, ?_, ?_, hfrac, ?_⟩
  · intro s w h1 h2 h3 h4
    refine ⟨?_, ?_, ?_, ?_⟩
    · show (0:ℝ) ≤ s.Use + p.U1 * (1 - s.Use)
      nlinarith
    · show s.Use + p.U1 * (1 - s.Use) ≤ 1
      nlinarith [mul_nonneg (sub_nonneg.mpr hU1) (sub_nonneg.mpr h2)]
    · show (0:ℝ) ≤ s.R - (s.Use + p.U1 * (1 - s.Use)) * s.R
      nlinarith [mul_nonneg (sub_nonneg.mpr hU1) (sub_nonneg.mpr h2),
        mul_nonneg (mul_nonneg (sub_nonneg.mpr hU1) (sub_nonneg.mpr h2)) h3]
    · show s.R - (s.Use + p.U1 * (1 - s.Use)) * s.R ≤ 1
      nlinarith [(hfrac s h1 h2 h3 h4).1]
  · intro s dt hdt h1 h2 h3 h4
    have hEf : Real.exp (-dt / p.tau_facil) ≤ 1 := by
      apply Real.exp_le_one_iff.mpr
      apply div_nonpos_of_nonpos_of_nonneg (by linarith) (le_of_lt htf)
    have hEfpos := Real.exp_pos (-dt / p.tau_facil)
    have hEr : Real.exp (-dt / p.tau_rec) ≤ 1 := by
      apply Real.exp_le_one_iff.mpr
      apply div_nonpos_of_nonpos_of_nonneg (by linarith) (le_of_lt htr)
    have hErpos := Real.exp_pos (-dt / p.tau_rec)
    refine ⟨?_, ?_, ?_, ?_⟩
    · show (0:ℝ) ≤ s.Use * Real.exp (-dt / p.tau_facil)
      exact mul_nonneg h1 (le_of_lt hEfpos)
    · show s.Use * Real.exp (-dt / p.tau_facil) ≤ 1
      nlinarith
    · show (0:ℝ) ≤ 1 - (1 - s.R) * Real.exp (-dt / p.tau_rec)
      nlinarith
    · show 1 - (1 - s.R) * Real.exp (-dt / p.tau_rec) ≤ 1
      nlinarith
  · intro s w hw h1 h2 h3 h4
    have hA := (hfrac s h1 h2 h3 h4).1
    have hFA := le_of_lt (normFactor_pos hra hda)
    have hFN := le_of_lt (normFactor_pos hrn hdn)
    refine ⟨?_, ?_, ?_, ?_⟩
    · show s.A_AMPA ≤ s.A_AMPA + (s.Use + p.U1 * (1 - s.Use)) * s.R * w
        * normFactor p.tau_r_AMPA p.tau_d_AMPA
      nlinarith [mul_nonneg (mul_nonneg hA hw) hFA]
    · show s.B_AMPA ≤ s.B_AMPA + (s.Use + p.U1 * (1 - s.Use)) * s.R * w
        * normFactor p.tau_r_AMPA p.tau_d_AMPA
      nlinarith [mul_nonneg (mul_nonneg hA hw) hFA]
    · show s.A_NMDA ≤ s.A_NMDA + (s.Use + p.U1 * (1 - s.Use)) * s.R * w
        * normFactor p.tau_r_NMDA p.tau_d_NMDA
      nlinarith [mul_nonneg (mul_nonneg hA hw) hFN]
    · show s.B_NMDA ≤ s.B_NMDA + (s.Use + p.U1 * (1 - s.Use)) * s.R * w
        * normFactor p.tau_r_NMDA p.tau_d_NMDA
      nlinarith [mul_nonneg (mul_nonneg hA hw) hFN]

/-- Witness for claim C10 at the default deterministic parameters. -/
theorem deterministic_tm_bounds_witness :
    (0 ≤ detParams.U1 ∧ detParams.U1 ≤ 1 ∧ 0 < detParams.tau_facil
      ∧ 0 < detParams.tau_rec ∧ 0 < detParams.tau_r_AMPA
      ∧ detParams.tau_r_AMPA < detParams.tau_d_AMPA
      ∧ 0 < detParams.tau_r_NMDA ∧ detParams.tau_r_NMDA < detParams.tau_d_NMDA)
    ∧ ((0 ≤ TMinit.Use ∧ TMinit.Use ≤ 1 ∧ 0 ≤ TMinit.R ∧ TMinit.R ≤ 1)
    ∧ (∀ (s : TMState) (w : ℝ), 0 ≤ s.Use → s.Use ≤ 1 → 0 ≤ s.R → s.R ≤ 1 →
        0 ≤ (TMnetReceive detParams w s).Use ∧ (TMnetReceive detParams w s).Use ≤ 1
        ∧ 0 ≤ (TMnetReceive detParams w s).R ∧ (TMnetReceive detParams w s).R ≤ 1)
    ∧ (∀ (s : TMState) (dt : ℝ), 0 ≤ dt → 0 ≤ s.Use → s.Use ≤ 1 → 0 ≤ s.R → s.R ≤ 1 →
        0 ≤ (TMrelax detParams dt s).Use ∧ (TMrelax detParams dt s).Use ≤ 1
        ∧ 0 ≤ (TMrelax detParams dt s).R ∧ (TMrelax detParams dt s).R ≤ 1)
    ∧ (∀ s : TMState, 0 ≤ s.Use → s.Use ≤ 1 → 0 ≤ s.R → s.R ≤ 1 →
        0 ≤ (s.Use + detParams.U1 * (1 - s.Use)) * s.R
        ∧ (s.Use + detParams.U1 * (1 - s.Use)) * s.R ≤ 1)
    ∧ (∀ (s : TMState) (w : ℝ), 0 ≤ w → 0 ≤ s.Use → s.Use ≤ 1 → 0 ≤ s.R → s.R ≤ 1 →
        s.A_AMPA ≤ (TMnetReceive detParams w s).A_AMPA
        ∧ s.B_AMPA ≤ (TMnetReceive detParams w s).B_AMPA
        ∧ s.A_NMDA ≤ (TMnetReceive detParams w s).A_NMDA
        ∧ s.B_NMDA ≤ (TMnetReceive detParams w s).B_NMDA)) :=
  ⟨⟨by norm_num [detParams], by norm_num [detParams], by norm_num [detParams],
      by norm_num [detParams], by norm_num [detParams], by norm_num [detParams],
      by norm_num [detParams], by norm_num [detParams]⟩,
    deterministic_tm_bounds detParams (by norm_num [detParams]) (by norm_num [detParams])
      (by norm_num [detParams]) (by norm_num [detParams]) (by norm_num [detParams])
      (by norm_num [detParams]) (by norm_num [detParams]) (by norm_num [detParams])⟩

/-- Python values appearing in the grading example of docs/README.md: JSON
strings, integers (for grade values) and objects. -/
inductive PyJson where
  | str : String → PyJson
  | num : Int → PyJson
  | obj : List (String × PyJson) → PyJson

/-- Quote character used by the JSON serializer model. -/
def quoteMark : String := "\""

/-- Separator used by the JSON serializer model. -/
def commaSep : String := ", "

/-- Key-value separator used by the JSON serializer model. -/
def colonSep : String := ": "

/-- Model of Python json.dumps as used by the example (standard JSON
serialization of strings, integers and objects). -/
def jsonDumps : PyJson → String
  | PyJson.str s => quoteMark ++ s ++ quoteMark
  | PyJson.num n => toString n
  | PyJson.obj l =>
      "\x7b" ++ String.intercalate commaSep
        (l.attach.map (fun kv => quoteMark ++ kv.1.1 ++ quoteMark ++ colonSep
          ++ jsonDumps kv.1.2)) ++ "\x7d"
  decreasing_by
    obtain ⟨⟨a, b⟩, hmem⟩ := kv
    have h1 := List.sizeOf_lt_of_mem hmem
    simp only [PyJson.obj.sizeOf_spec, Prod.mk.sizeOf_spec] at h1 ⊢
    omega

/-- Python dict lookup on an association list (keys are unique in the bodies
the example reads). -/
def lookupKey : List (String × PyJson) → String → Option PyJson
  | [], _ => none
  | (k, v) :: rest, key => if k = key then some v else lookupKey rest key

/-- Model of Python str() as applied by the prints of the example. -/
def pyStr : PyJson → String
  | PyJson.str s => s
  | PyJson.num n => toString n
  | PyJson.obj l => jsonDumps (PyJson.obj l)

/-- Exception classes relevant to the example: ValueError (the only class
its except clause names), NameError (raised by the use of an unbound name),
KeyError and TypeError (raised by failing dict lookups), and the network
exception classes ConnectionError and Timeout that requests.post raises on
network failure. -/
inductive PyExc where
  | valueError
  | nameError
  | keyError
  | typeError
  | connectionError
  | timeout
deriving DecidableEq

/-- The grading endpoint of the example. -/
def ENDPOINT : String := "https://bbp.epfl.ch/edx-grader/answer"

/-- Key of the submission token in the POST body. -/
def submissionTokenKey : String := "submission_token"

/-- Key of the serialized answers in the POST body. -/
def answerKey : String := "answer"

/-- Key read from the response body on success. -/
def gradeKey : String := "grade"

/-- Key read from the grade dictionary. -/
def valueKey : String := "value"

/-- Key read from the response body on failure. -/
def messageKey : String := "message"

/-- Success line printed by the example. -/
def successMsg : String := "Your answer was submitted successfully!"

/-- Label of the grade line printed by the example (the format string
GRADE: applied to the grade value). -/
def gradeLabel : String := "GRADE: "

/-- Line printed by the except clause of the example. -/
def errorSendingMsg : String := "Error sending the answers"

/-- POST body built by the example:
data = dict with submission_token mapped to the key and answer mapped to
json.dumps of the answers. -/
def buildData (submissionKey : String) (answers : PyJson) : List (String × PyJson) :=
  [(submissionTokenKey, PyJson.str submissionKey),
   (answerKey, PyJson.str (jsonDumps answers))]

/-- requests.codes.ok. -/
def requestsCodesOk : Nat := 200

/-- An HTTP response as the example reads it: status code and parsed JSON
body. -/
structure GraderResponse where
  status : Nat
  body : List (String × PyJson)

/-- Response handling of the example: on status == requests.codes.ok read
grade = response.json()['grade'], print the success line, then print the
grade line with grade['value']; otherwise print response.json()['message'].
The result is the list of printed lines together with the exception raised,
if any (KeyError for a missing key, TypeError when grade is not a dict);
prints that happen before such an exception are kept. -/
def processResponse (resp : GraderResponse) : List String × Option PyExc :=
  if resp.status = requestsCodesOk then
    match lookupKey resp.body gradeKey with
    | none => ([], some PyExc.keyError)
    | some grade =>
      match grade with
      | PyJson.obj g =>
        match lookupKey g valueKey with
        | none => ([successMsg], some PyExc.keyError)
        | some v => ([successMsg, gradeLabel ++ pyStr v], none)
      | _ => ([successMsg], some PyExc.typeError)
  else
    match lookupKey resp.body messageKey with
    | none => ([], some PyExc.keyError)
    | some m => ([pyStr m], none)

/-- The whole example around the POST call: the try block contains only the
requests.post call; its except clause names exactly ValueError.  When the
POST raises ValueError the handler prints the error line and execution falls
through to the unconditional status-code check, where the name response is
unbound and a NameError is raised; any other exception raised by the POST
propagates out of the example; when the POST returns a response the response
handling above runs. -/
def runGraderExample (postResult : Except PyExc GraderResponse) :
    List String × Option PyExc :=
  match postResult with
  | Except.ok resp => processResponse resp
  | Except.error e =>
    if e = PyExc.valueError then ([errorSendingMsg], some PyExc.nameError)
    else ([], some e)

/-- Claim C8: the example posts a JSON body that is a dictionary with exactly
the two keys submission_token and answer, the latter holding json.dumps of
the answers; when the response status is requests.codes.ok it prints the
success line and the value found at response.json()['grade']['value'], and
for every other status it prints response.json()['message']. -/
theorem grader_submission_spec (submissionKey : String) (answers : PyJson) :
    (buildData submissionKey answers).map Prod.fst = [submissionTokenKey, answerKey]
    ∧ lookupKey (buildData submissionKey answers) submissionTokenKey
        = some (PyJson.str submissionKey)
    ∧ lookupKey (buildData submissionKey answers) answerKey
        = some (PyJson.str (jsonDumps answers))
    ∧ (∀ (status : Nat) (body g : List (String × PyJson)) (v : PyJson),
        status = requestsCodesOk
        → lookupKey body gradeKey = some (PyJson.obj g)
        → lookupKey g valueKey = some v
        → processResponse ⟨status, body⟩ = ([successMsg, gradeLabel ++ pyStr v], none))
    ∧ (∀ (status : Nat) (body : List (String × PyJson)) (m : PyJson),
        status ≠ requestsCodesOk
        → lookupKey body messageKey = some m
        → processResponse ⟨status, body⟩ = ([pyStr m], none)) := by
  refine ⟨rfl, ?_, ?_, ?_, ?_⟩
  · simp [buildData, lookupKey, submissionTokenKey]
  · simp [buildData, lookupKey, submissionTokenKey, answerKey]
  · intro status body g v hs hg hv
    subst hs
    simp [processResponse, hg, hv]
  · intro status body m hs hm
    simp [processResponse, hs, hm]

/-- Sample submission key for the witness. -/
def sampleKey : String := "EDX_SUBMISSION_KEY"

/-- Sample answer string for the witness. -/
def sampleAnswerStr : String := "YOUR_ANSWER"

/-- Sample failure message for the witness. -/
def badTokenMsg : String := "Bad submission token"

/-- Sample successful response body for the witness. -/
def okBody : List (String × PyJson) :=
  [(gradeKey, PyJson.obj [(valueKey, PyJson.num 5)])]

/-- Sample failing response body for the witness. -/
def errBody : List (String × PyJson) := [(messageKey, PyJson.str badTokenMsg)]

/-- Witness for claim C8 at a concrete submission and concrete responses. -/
theorem grader_submission_spec_witness :
    (buildData sampleKey (PyJson.str sampleAnswerStr)).map Prod.fst
        = [submissionTokenKey, answerKey]
    ∧ lookupKey (buildData sampleKey (PyJson.str sampleAnswerStr)) submissionTokenKey
        = some (PyJson.str sampleKey)
    ∧ lookupKey (buildData sampleKey (PyJson.str sampleAnswerStr)) answerKey
        = some (PyJson.str (jsonDumps (PyJson.str sampleAnswerStr)))
    ∧ processResponse ⟨200, okBody⟩
        = ([successMsg, gradeLabel ++ pyStr (PyJson.num 5)], none)
    ∧ processResponse ⟨404, errBody⟩ = ([pyStr (PyJson.str badTokenMsg)], none) := by
  have h := grader_submission_spec sampleKey (PyJson.str sampleAnswerStr)
  refine ⟨h.1, h.2.1, h.2.2.1, ?_, ?_⟩
  · exact h.2.2.2.1 200 okBody [(valueKey, PyJson.num 5)] (PyJson.num 5) rfl
      (by simp [okBody, lookupKey]) (by simp [lookupKey])
  · exact h.2.2.2.2 404 errBody (PyJson.str badTokenMsg)
      (by decide) (by simp [errBody, lookupKey])

/-- Counterexample for claim C9: a network exception of class
ConnectionError raised by the POST is not caught by the except ValueError
clause; nothing is printed and the exception propagates out of the
example. -/
theorem grader_catch_counterexample :
    ¬ ((runGraderExample (Except.error PyExc.connectionError)).1 = [errorSendingMsg]
      ∧ (runGraderExample (Except.error PyExc.connectionError)).2 = none) := by
  intro h
  simp [runGraderExample] at h

/-- Claim C9 amended: the except clause of the example catches only
ValueError: a ValueError raised by the POST is caught and the error line is
printed, after which the unconditional use of the unbound name response
raises NameError; every exception of any other class raised by the POST,
network exceptions included, propagates out of the example with nothing
printed. -/
theorem grader_catch_amended :
    runGraderExample (Except.error PyExc.valueError)
        = ([errorSendingMsg], some PyExc.nameError)
    ∧ (∀ e : PyExc, e ≠ PyExc.valueError →
        runGraderExample (Except.error e) = ([], some e)) := by
  constructor
  · rfl
  · intro e he
    simp [runGraderExample, he]

/-- Witness for the amended claim C9 at the Timeout exception class. -/
theorem grader_catch_amended_witness :
    (PyExc.timeout ≠ PyExc.valueError)
    ∧ runGraderExample (Except.error PyExc.timeout) = ([], some PyExc.timeout) :=
  ⟨by decide, grader_catch_amended.2 PyExc.timeout (by decide)⟩
